import Mathlib

/-
Verification of the kyverno-mcp compliance-scanning core:
Resource Resolution → Policy Loading → Application Orchestration →
Report Classification.

Shallow embedding of the Go sources:
  pkg/kyverno/resource_loader.go  (apiResourceLoader, LocalPolicyLoader)
  pkg/kyverno/engine.go           (kyvernoEngine.ApplyPolicies)
  pkg/kyverno-cli/cli.go          (BuildPolicyReportResults)
  pkg/tools/show_violations.go    (gatherViolationsJSON)
  pkg/common/common.go            (ParseNamespaceExcludes)

External effects (the Kubernetes dynamic client, the filesystem, the YAML
parser, wall-clock time) are passed in as explicit parameters or pre-parsed
values, so every definition is executable and the orchestration logic is
translated line by line from the source.
-/

/-! ## Data model (pkg/mcp/types) -/

/-- ResourceQuery from pkg/mcp/types: selects resources from the API.
The Go field Namespace is rendered as nspace (Lean keyword clash). -/

structure ResourceQuery where
  apiVersion : String
  kind : String
  nspace : String
  name : String
  labelSelector : String
  fieldSelector : String
deriving DecidableEq, Repr

/-- Identity fields of a resolved unstructured resource: the accessors
GetAPIVersion, GetKind, GetNamespace, GetName, GetUID used by the engine. -/

structure KResource where
  apiVersion : String
  kind : String
  nspace : String
  name : String
  uid : String
deriving DecidableEq, Repr

/-- ResourceInfo from pkg/mcp/types. -/

structure ResourceInfo where
  apiVersion : String
  kind : String
  nspace : String
  name : String
  uid : String
deriving DecidableEq, Repr

/-- RuleResult from pkg/mcp/types: Name, Type, Message, Status. -/

structure RuleResult where
  name : String
  rtype : String
  message : String
  status : String
deriving DecidableEq, Repr

/-- PolicyApplicationResult from pkg/mcp/types. -/

structure PolicyApplicationResult where
  policy : String
  resource : ResourceInfo
  rules : List RuleResult
deriving DecidableEq, Repr

/-- ApplyRequest from pkg/mcp/types (the fields engine.go reads). -/

structure ApplyRequest where
  policyPaths : List String
  resourceQueries : List ResourceQuery
deriving DecidableEq, Repr

/-- ApplyResponse from pkg/mcp/types: Results plus the raw resources. -/

structure ApplyResponse where
  results : List PolicyApplicationResult
  resources : List KResource
deriving DecidableEq, Repr

/-- A kyvernov1 Rule: its name and which optional sub-blocks
(Validation / Mutation / Generation pointers) are populated. -/

structure KRule where
  name : String
  hasValidation : Bool
  hasMutation : Bool
  hasGeneration : Bool
deriving DecidableEq, Repr

/-- A loaded kyvernov1 ClusterPolicy / Policy as the engine consumes it:
GetName() and Spec.Rules. -/

structure KPolicy where
  apiVersion : String
  kind : String
  name : String
  rules : List KRule
deriving DecidableEq, Repr

/-! ## Resource Resolver (pkg/kyverno/resource_loader.go, apiResourceLoader) -/

/-- Outcome of the dynamic client call ri.Get(ctx, name, GetOptions): the
resource, a NotFound API error (errors.IsNotFound), or another API error. -/

inductive GetOutcome where
  | found (r : KResource)
  | notFound
  | apiError (msg : String)
deriving DecidableEq, Repr

/-- getSingleResource from resource_loader.go, lines 101-117, with the
dynamic client's Get outcome passed in.  On errors.IsNotFound the Go code
logs at klog.V(4) and returns (nil, nil): an empty result and no error. -/

def getSingleResource (q : ResourceQuery) (g : GetOutcome) :
    Except String (List KResource) :=
  match g with
  | .found r => .ok [r]
  | .notFound => .ok []
  | .apiError m =>
      .error ("failed to get " ++ q.kind.toLower ++ " " ++ q.name ++
        " in namespace " ++ q.nspace ++ ": " ++ m)

/-- validateQuery from resource_loader.go: apiVersion and kind required. -/

def validateQuery (q : ResourceQuery) : Except String Unit :=
  if q.apiVersion = "" then .error "apiVersion is required"
  else if q.kind = "" then .error "kind is required"
  else .ok ()

/-! ## Policy Loader (pkg/kyverno/resource_loader.go, LocalPolicyLoader) -/

/-- A policy YAML document after k8s yaml-to-JSON conversion, holding the
fields read by either unmarshal target.  json.Unmarshal ignores unknown
fields, so one document feeds both the ClusterPolicy target (apiVersion,
kind, metadata.name, spec.rules; items ignored) and the ClusterPolicyList
target (items; spec ignored). -/

structure PolicyFileDoc where
  apiVersion : String
  kind : String
  name : String
  rules : List KRule
  items : List KPolicy
deriving DecidableEq, Repr

/-- Unmarshalling a document into kyvernov1.ClusterPolicy: the unknown
field items is ignored, the rest maps across. -/

def asClusterPolicy (d : PolicyFileDoc) : KPolicy :=
  { apiVersion := d.apiVersion, kind := d.kind, name := d.name,
    rules := d.rules }

/-- Unmarshalling a document into kyvernov1.ClusterPolicyList: only the
items field is read; a single-policy document yields empty items. -/

def asClusterPolicyList (d : PolicyFileDoc) : List KPolicy :=
  d.items

/-- LocalPolicyLoader.Load from resource_loader.go, lines 209-245, at the
parsed-content level (file existence and read already succeeded).  none
models content that fails both unmarshal attempts (malformed YAML).
The source first unmarshals as a single ClusterPolicy and accepts whenever
err == nil and policy.APIVersion != ""; only otherwise does it unmarshal
as a ClusterPolicyList and accept when len(items) > 0; else it errors. -/

def localPolicyLoad (content : Option PolicyFileDoc) :
    Except String (List KPolicy) :=
  match content with
  | none => .error "failed to parse policy file: not a valid Kyverno policy"
  | some d =>
      if (asClusterPolicy d).apiVersion ≠ "" then
        .ok [asClusterPolicy d]
      else if (asClusterPolicyList d).length > 0 then
        .ok (asClusterPolicyList d)
      else
        .error "failed to parse policy file: not a valid Kyverno policy"

/-- The YAML document holding exactly one policy. -/

def singleDocOf (p : KPolicy) : PolicyFileDoc :=
  { apiVersion := p.apiVersion, kind := p.kind, name := p.name,
    rules := p.rules, items := [] }

/-- The YAML list document wrapping one policy as its sole item: a
ClusterPolicyList carries its own top-level apiVersion and kind and an
empty metadata.name, and spec.rules is absent. -/

def listDocOf (p : KPolicy) : PolicyFileDoc :=
  { apiVersion := "kyverno.io/v1", kind := "ClusterPolicyList", name := "",
    rules := [], items := [p] }

/-! ## Application Orchestrator (pkg/kyverno/engine.go) -/

/-- Rule-type inference from engine.go lines 113-121: default validate,
then the first populated block among Validation, Mutation, Generation. -/

def ruleTypeOf (r : KRule) : String :=
  if r.hasValidation then "validate"
  else if r.hasMutation then "mutate"
  else if r.hasGeneration then "generate"
  else "validate"

/-- The placeholder per-(resource, policy, rule) result built by
engine.go lines 125-142: one RuleResult with status pass. -/

def mkApplicationResult (policy : KPolicy) (res : KResource) (r : KRule) :
    PolicyApplicationResult :=
  { policy := policy.name,
    resource := { apiVersion := res.apiVersion, kind := res.kind,
                  nspace := res.nspace, name := res.name, uid := res.uid },
    rules := [ { name := r.name, rtype := ruleTypeOf r,
                 message := "Policy rule evaluated", status := "pass" } ] }

/-- The triple loop of engine.go lines 93-147: every rule of every policy
against every resource, appending one result per triple. -/

def applyLoop (policies : List KPolicy) (resources : List KResource) :
    List PolicyApplicationResult :=
  resources.flatMap fun res =>
    policies.flatMap fun policy =>
      policy.rules.map fun r => mkApplicationResult policy res r

/-- The policy-loading loop of engine.go lines 56-64: each path through
the PolicyLoader, aborting on the first error (wrapped with the path). -/

def loadAllPolicies (f : String → Except String (List KPolicy)) :
    List String → Except String (List KPolicy)
  | [] => .ok []
  | path :: rest =>
    match f path with
    | .error e => .error ("failed to load policy from " ++ path ++ ": " ++ e)
    | .ok ps =>
      match loadAllPolicies f rest with
      | .error e => .error e
      | .ok qs => .ok (ps ++ qs)

/-- kyvernoEngine.ApplyPolicies from engine.go lines 48-154, with the
PolicyLoader and ResourceLoader collaborators passed in as functions.
The source contains two consecutive len(allPolicies) == 0 checks; the
first returns an error, so the second (empty-success) branch is dead and
is kept here verbatim. -/

def applyPolicies (f : String → Except String (List KPolicy))
    (g : List ResourceQuery → Except String (List KResource))
    (req : ApplyRequest) : Except String ApplyResponse :=
  if req.policyPaths.isEmpty then
    .error "no policy paths provided in the request"
  else
    match loadAllPolicies f req.policyPaths with
    | .error e => .error e
    | .ok allPolicies =>
      if allPolicies.isEmpty then
        .error "no valid policies found in the provided paths"
      else if allPolicies.isEmpty then
        .ok { results := [], resources := [] }
      else
        match g req.resourceQueries with
        | .error e => .error ("failed to load resources: " ++ e)
        | .ok resources =>
          if resources.isEmpty then
            .ok { results := [], resources := [] }
          else
            .ok { results := applyLoop allPolicies resources,
                  resources := resources }

/-! ## Report Classifier (pkg/kyverno-cli/cli.go, BuildPolicyReportResults) -/

/-- A rule response inside an EngineResponse's PolicyResponse: the
RuleType(), Status(), Name() and Message() accessors used by cli.go.
RuleType values are the engineapi strings Validation / Mutation /
Generation; Status values are the strings pass / fail / warn / error /
skip (RuleStatus is a string type, so anything else is representable). -/

structure RuleResponse where
  name : String
  ruleType : String
  status : String
  message : String
deriving DecidableEq, Repr

/-- An engineapi.EngineResponse as cli.go reads it: the policy's name and
its metadata annotation pairs, the GetValidationFailureAction().Audit()
boundary predicate, the resource identity, and the rule responses. -/

structure EngineResponse where
  policyName : String
  anns : List (String × String)
  failureActionAudit : Bool
  resource : KResource
  rules : List RuleResponse
deriving DecidableEq, Repr

/-- corev1.ObjectReference fields populated at cli.go lines 39-45. -/

structure ObjectRef where
  kind : String
  nspace : String
  apiVersion : String
  name : String
  uid : String
deriving DecidableEq, Repr

/-- policyreportv1alpha2.PolicyReportResult as cli.go populates it. -/

structure PolicyReportResult where
  policy : String
  rule : String
  resources : List ObjectRef
  scored : Bool
  message : String
  result : String
  source : String
  timestamp : Int
  category : String
  severity : String
deriving DecidableEq, Repr

/-- kyverno.AnnotationPolicyScored. -/

def scoredKey : String := "policies.kyverno.io/scored"

/-- kyverno.AnnotationPolicyCategory. -/

def categoryKey : String := "policies.kyverno.io/category"

/-- kyverno.AnnotationPolicySeverity. -/

def severityKey : String := "policies.kyverno.io/severity"

/-- cli.go lines 21-26: scored defaults to true and flips to false only
when the scored annotation is present with value "false". -/

def scoredOf (er : EngineResponse) : Bool :=
  match er.anns.lookup scoredKey with
  | some v => if v = "false" then false else true
  | none => true

/-- Annotation lookup for the category, empty when absent (Go map read). -/

def categoryOf (er : EngineResponse) : String :=
  (er.anns.lookup categoryKey).getD ""

/-- Annotation lookup for the severity, empty when absent (Go map read). -/

def severityOf (er : EngineResponse) : String :=
  (er.anns.lookup severityKey).getD ""

/-- The status decision chain of cli.go lines 51-66, entered only after
pass and skip were filtered out: error stays error; fail downgrades to
warn when unscored, or when auditWarn is set and the failure action is
audit, and stays fail otherwise; warn stays warn; anything else falls
back to error. -/

def classifyRuleStatus (auditWarn scored failureAudit : Bool)
    (status : String) : String :=
  if status = "error" then "error"
  else if status = "fail" then
    if !scored then "warn"
    else if auditWarn && failureAudit then "warn"
    else "fail"
  else if status = "warn" then "warn"
  else "error"

/-- The per-rule body of the loop at cli.go lines 29-72: skip rules whose
type is not Validation, skip pass and skip statuses, and otherwise build
the report result. -/

def processRule (now : Int) (auditWarn : Bool) (er : EngineResponse)
    (scored : Bool) (category severity : String) (rr : RuleResponse) :
    Option PolicyReportResult :=
  if rr.ruleType ≠ "Validation" then none
  else if rr.status = "pass" ∨ rr.status = "skip" then none
  else some
    { policy := er.policyName,
      rule := rr.name,
      resources := [ { kind := er.resource.kind,
                       nspace := er.resource.nspace,
                       apiVersion := er.resource.apiVersion,
                       name := er.resource.name,
                       uid := er.resource.uid } ],
      scored := scored,
      message := rr.message,
      result := classifyRuleStatus auditWarn scored er.failureActionAudit
        rr.status,
      source := "kyverno",
      timestamp := now,
      category := category,
      severity := severity }

/-- The results accumulated by the two nested loops of cli.go lines
18-73, before the nil check. -/

def rawReportResults (now : Int) (auditWarn : Bool)
    (ers : List EngineResponse) : List PolicyReportResult :=
  ers.flatMap fun er =>
    er.rules.filterMap
      (processRule now auditWarn er (scoredOf er) (categoryOf er)
        (severityOf er))

/-- The placeholder inserted at cli.go lines 74-83 when no result was
appended; unset Go fields keep their zero values. -/

def noPoliciesResult : PolicyReportResult :=
  { policy := "No policies applied",
    rule := "No policies applied",
    resources := [],
    scored := false,
    message := "No policies applied",
    result := "skip",
    source := "",
    timestamp := 0,
    category := "",
    severity := "" }

/-- BuildPolicyReportResults from cli.go lines 15-85, with time.Now
passed in as now.  A nil (never-appended) slice is replaced by the
single placeholder entry. -/

def buildPolicyReportResults (now : Int) (auditWarn : Bool)
    (ers : List EngineResponse) : List PolicyReportResult :=
  let results := rawReportResults now auditWarn ers
  if results.isEmpty then [noPoliciesResult] else results

/-! ## Violations gatherer (pkg/tools/show_violations.go, pkg/common) -/

/-- ParseNamespaceExcludes from common.go lines 21-29: split on commas,
trim, drop empties.  The Go map is modelled by this list; membership is
what the gatherer consults. -/

def parseNamespaceExcludes (s : String) : List String :=
  ((s.splitOn ",").map String.trim).filter (fun ns => ns ≠ "")

/-- The report payload obtained by converting an unstructured item into a
typed PolicyReport: the Summary.Fail and Summary.Error counters and the
Results list (entries share the PolicyReportResult shape). -/

structure ReportData where
  summaryFail : Nat
  summaryError : Nat
  results : List PolicyReportResult
deriving DecidableEq, Repr

/-- One unstructured PolicyReport / ClusterPolicyReport item as the
gatherer sees it: its namespace (readable before conversion) and the
converted payload, none when FromUnstructured fails (that item is
logged and skipped). -/

structure ReportItem where
  nspace : String
  parsed : Option ReportData
deriving DecidableEq, Repr

/-- The per-item body of addResults in show_violations.go lines 93-128:
drop excluded namespaces, drop items that fail conversion, drop reports
whose summary shows zero fails and zero errors, then keep exactly the
results whose status is fail, error or warn. -/

def itemContribution (excl : List String) (u : ReportItem) :
    List PolicyReportResult :=
  if excl.contains u.nspace then []
  else
    match u.parsed with
    | none => []
    | some pr =>
      if pr.summaryFail = 0 ∧ pr.summaryError = 0 then []
      else
        pr.results.filter fun r =>
          r.result = "fail" ∨ r.result = "error" ∨ r.result = "warn"

/-- addResults over a listed batch of report items. -/

def addResults (excl : List String) (items : List ReportItem) :
    List PolicyReportResult :=
  items.flatMap (itemContribution excl)

/-- The accumulation order of gatherViolationsJSON lines 90-156: the
namespaced PolicyReports first, then the cluster-scoped
ClusterPolicyReports, into one shared result list.  The final JSON body
is this list; when it is empty the function returns the literal empty
array "[]" (lines 158-161), with no placeholder entry. -/

def gatherViolations (excl : List String)
    (nsItems cItems : List ReportItem) : List PolicyReportResult :=
  addResults excl nsItems ++ addResults excl cItems

/-! ## Concrete fixtures -/

/-- The query of the repository's own "resource not found" test case. -/

def missingDeploymentQuery : ResourceQuery :=
  { apiVersion := "apps/v1", kind := "Deployment", nspace := "default",
    name := "non-existent", labelSelector := "", fieldSelector := "" }

/-- A PolicyLoader that loads successfully but yields zero policies. -/

def emptyPolicyLoader : String → Except String (List KPolicy) :=
  fun _ => Except.ok []

/-- A ResourceLoader that resolves successfully to zero resources. -/

def emptyResourceLoader : List ResourceQuery → Except String (List KResource) :=
  fun _ => Except.ok []

/-- A request with one policy path and no resource queries. -/

def reqOnePath : ApplyRequest :=
  { policyPaths := ["policies.yaml"], resourceQueries := [] }

/-- The validate policy of the repository's policy-loader tests. -/

def requireLabelsPolicy : KPolicy :=
  { apiVersion := "kyverno.io/v1", kind := "ClusterPolicy",
    name := "require-labels",
    rules := [ { name := "check-for-labels", hasValidation := true,
                 hasMutation := false, hasGeneration := false } ] }

/-! ## Fixture inputs for the witness and counterexample runs -/

/-- A PolicyLoader returning one fixed policy for every path. -/
def onePolicyLoader : String → Except String (List KPolicy) :=
  fun _ => Except.ok [requireLabelsPolicy]

/-- The pod used by the witness run. -/
def testPod : KResource :=
  { apiVersion := "v1", kind := "Pod", nspace := "default",
    name := "test-pod", uid := "uid-1" }

/-- A ResourceLoader resolving to the single test pod. -/
def onePodLoader : List ResourceQuery → Except String (List KResource) :=
  fun _ => Except.ok [testPod]

/-- The query of the witness run: one named pod. -/
def podQuery : ResourceQuery :=
  { apiVersion := "v1", kind := "Pod", nspace := "default",
    name := "test-pod", labelSelector := "", fieldSelector := "" }

/-- The request of the witness run: one policy path, one pod query. -/
def reqPod : ApplyRequest :=
  { policyPaths := ["policies.yaml"], resourceQueries := [podQuery] }

/-- The response of the witness run. -/
def respPod : ApplyResponse :=
  { results := applyLoop [requireLabelsPolicy] [testPod],
    resources := [testPod] }

/-- The single rule of requireLabelsPolicy. -/
def checkLabelsRule : KRule :=
  { name := "check-for-labels", hasValidation := true,
    hasMutation := false, hasGeneration := false }

/-- The one application result of the witness run. -/
def parPod : PolicyApplicationResult :=
  mkApplicationResult requireLabelsPolicy testPod checkLabelsRule

/-- The one rule result of the witness run. -/
def rrPod : RuleResult :=
  { name := "check-for-labels", rtype := "validate",
    message := "Policy rule evaluated", status := "pass" }

/-- A fail rule response of the witness classification run. -/
def failRule : RuleResponse :=
  { name := "check-for-labels", ruleType := "Validation",
    status := "fail", message := "validation error" }

/-- The engine response of the witness classification run: an unscored
policy in audit mode with one failing validation rule. -/
def erUnscored : EngineResponse :=
  { policyName := "require-labels",
    anns := [(scoredKey, "false")],
    failureActionAudit := true,
    resource := testPod,
    rules := [failRule] }

/-- An engine response restricted to its validation rule responses. -/
def keepValidationOnly (er : EngineResponse) : EngineResponse :=
  { er with rules := er.rules.filter fun r => r.ruleType = "Validation" }

/-- A mutation rule response with a failing status. -/
def mutateRule : RuleResponse :=
  { name := "add-label", ruleType := "Mutation",
    status := "fail", message := "mutation failed" }

/-- An engine response mixing a mutation rule and a validation rule. -/
def erMixed : EngineResponse :=
  { policyName := "require-labels",
    anns := [],
    failureActionAudit := false,
    resource := testPod,
    rules := [mutateRule, failRule] }

/-- A warn-only report result of advisory severity. -/
def warnResult : PolicyReportResult :=
  { policy := "require-labels", rule := "check-for-labels",
    resources := [], scored := false, message := "advisory",
    result := "warn", source := "kyverno", timestamp := 0,
    category := "", severity := "" }

/-- A report payload holding only the warn result: its summary records
zero fails and zero errors. -/
def warnOnlyReport : ReportData :=
  { summaryFail := 0, summaryError := 0, results := [warnResult] }

/-- A convertible warn-only report item in the default namespace. -/
def warnOnlyItem : ReportItem :=
  { nspace := "default", parsed := some warnOnlyReport }

/-- A failing report result, used by the gatherer witnesses. -/
def failResult : PolicyReportResult :=
  { policy := "require-labels", rule := "check-for-labels",
    resources := [], scored := true, message := "label missing",
    result := "fail", source := "kyverno", timestamp := 0,
    category := "", severity := "" }

/-- A report payload with one failure recorded in its summary. -/
def failReport : ReportData :=
  { summaryFail := 1, summaryError := 0, results := [failResult] }

/-- A failing report item in the default namespace. -/
def failItem : ReportItem :=
  { nspace := "default", parsed := some failReport }

/-- A failing report item living in the kyverno namespace. -/
def kyvernoItem : ReportItem :=
  { nspace := "kyverno", parsed := some failReport }

/-! ## C1 -/

/-- Claim C1 (code bug witness): for the repository's own failing test
input, a named query whose API Get reports NotFound, getSingleResource
returns an empty resource list with no error, although the query names a
specific resource.  The repository's test TestAPILoader_Load expects the
error "not found" here, and spec §4.1 requires a propagated error. -/
theorem getSingleResource_notFound_silently_empty :
    getSingleResource missingDeploymentQuery GetOutcome.notFound =
      Except.ok [] ∧
    missingDeploymentQuery.name = "non-existent" :=
  ⟨rfl, rfl⟩

/-! ## C3 -/

/-- Claim C3 (counterexample): when zero policies are available after
loading (the loader succeeds with an empty list), ApplyPolicies does not
return an empty result list as a non-error outcome: it returns the error
"no valid policies found in the provided paths". -/
theorem applyPolicies_zero_policies_error_cex :
    applyPolicies emptyPolicyLoader emptyResourceLoader reqOnePath =
      Except.error "no valid policies found in the provided paths" :=
  rfl

/-- Claim C3 (amended): if zero resources are available after loading
while at least one policy loaded, ApplyPolicies returns an empty result
list as a valid, non-error outcome; but if zero policies are available
after loading, it returns the error "no valid policies found in the
provided paths" instead — the zero-policy empty-response branch in the
source is unreachable. -/
theorem applyPolicies_empty_loads :
    (∀ f g req ps, req.policyPaths.isEmpty = false →
      loadAllPolicies f req.policyPaths = Except.ok ps →
      ps.isEmpty = false →
      g req.resourceQueries = Except.ok [] →
      applyPolicies f g req = Except.ok { results := [], resources := [] }) ∧
    (∀ f g req, req.policyPaths.isEmpty = false →
      loadAllPolicies f req.policyPaths = Except.ok [] →
      applyPolicies f g req =
        Except.error "no valid policies found in the provided paths") := by
  constructor
  · intro f g req ps h1 h2 h3 h4
    unfold applyPolicies
    rw [h1, h2]
    simp [h3, h4]
  · intro f g req h1 h2
    unfold applyPolicies
    rw [h1, h2]
    simp

/-- Witness for the amended C3 theorem at concrete loaders and request. -/
theorem applyPolicies_empty_loads_witness :
    (reqOnePath.policyPaths.isEmpty = false ∧
      loadAllPolicies onePolicyLoader reqOnePath.policyPaths =
        Except.ok [requireLabelsPolicy] ∧
      ([requireLabelsPolicy] : List KPolicy).isEmpty = false ∧
      emptyResourceLoader reqOnePath.resourceQueries = Except.ok [] ∧
      applyPolicies onePolicyLoader emptyResourceLoader reqOnePath =
        Except.ok { results := [], resources := [] }) ∧
    (loadAllPolicies emptyPolicyLoader reqOnePath.policyPaths =
        Except.ok [] ∧
      applyPolicies emptyPolicyLoader emptyResourceLoader reqOnePath =
        Except.error "no valid policies found in the provided paths") :=
  ⟨⟨rfl, rfl, rfl, rfl,
    applyPolicies_empty_loads.1 onePolicyLoader emptyResourceLoader
      reqOnePath [requireLabelsPolicy] rfl rfl rfl rfl⟩,
   ⟨rfl,
    applyPolicies_empty_loads.2 emptyPolicyLoader emptyResourceLoader
      reqOnePath rfl rfl⟩⟩

/-! ## C2 -/

/-- Every result built by the engine's triple loop carries exactly one
rule result with status pass and the fixed placeholder message. -/

lemma applyLoop_rules_pass (ps : List KPolicy) (rs : List KResource)
    (par : PolicyApplicationResult) (h : par ∈ applyLoop ps rs) :
    ∀ rr ∈ par.rules, rr.status = "pass" ∧
      rr.message = "Policy rule evaluated" := by
  simp only [applyLoop, List.mem_flatMap, List.mem_map] at h
  obtain ⟨res, _, policy, _, r, _, hpar⟩ := h
  intro rr hrr
  rw [← hpar] at hrr
  simp only [mkApplicationResult, List.mem_singleton] at hrr
  rw [hrr]
  exact ⟨rfl, rfl⟩

/-- Claim C2: every rule result emitted by ApplyPolicies has status
"pass" and message "Policy rule evaluated", whatever the loaded policies
and resolved resources are: the orchestrator builds placeholder results
and never produces a fail, warn, error or skip outcome. -/
theorem applyPolicies_results_always_pass
    (f : String → Except String (List KPolicy))
    (g : List ResourceQuery → Except String (List KResource))
    (req : ApplyRequest) (resp : ApplyResponse)
    (h : applyPolicies f g req = Except.ok resp) :
    ∀ par ∈ resp.results, ∀ rr ∈ par.rules,
      rr.status = "pass" ∧ rr.message = "Policy rule evaluated" := by
  unfold applyPolicies at h
  by_cases h1 : req.policyPaths.isEmpty
  · rw [if_pos h1] at h
    exact absurd h (by simp)
  · rw [if_neg h1] at h
    cases hload : loadAllPolicies f req.policyPaths with
    | error e => rw [hload] at h; exact absurd h (by simp)
    | ok allPolicies =>
      rw [hload] at h
      simp only at h
      by_cases h2 : allPolicies.isEmpty
      · rw [if_pos h2] at h; exact absurd h (by simp)
      · rw [if_neg h2, if_neg h2] at h
        cases hres : g req.resourceQueries with
        | error e => rw [hres] at h; exact absurd h (by simp)
        | ok resources =>
          rw [hres] at h
          simp only at h
          by_cases h3 : resources.isEmpty
          · rw [if_pos h3] at h
            have hresp : resp = { results := [], resources := [] } :=
              (Except.ok.injEq _ _).mp h.symm
            rw [hresp]
            intro par hpar
            exact absurd hpar (by simp)
          · rw [if_neg h3] at h
            have hresp : resp =
                { results := applyLoop allPolicies resources,
                  resources := resources } :=
              (Except.ok.injEq _ _).mp h.symm
            rw [hresp]
            intro par hpar
            exact applyLoop_rules_pass allPolicies resources par hpar

/-- Witness for C2: a concrete run producing one result whose rule
result is a pass with the placeholder message. -/
theorem applyPolicies_results_always_pass_witness :
    applyPolicies onePolicyLoader onePodLoader reqPod =
      Except.ok respPod ∧
    rrPod.status = "pass" ∧ rrPod.message = "Policy rule evaluated" :=
  ⟨rfl,
   applyPolicies_results_always_pass onePolicyLoader onePodLoader reqPod
     respPod rfl parPod (by decide) rrPod (by decide)⟩

/-! ## C7 -/

/-- Claim C7 (counterexample): loading the single-policy document for the
require-labels policy yields that policy, but loading the same policy
wrapped as the sole item of a ClusterPolicyList document yields one
degenerate policy parsed from the list document's own top-level fields
(kind ClusterPolicyList, empty name, no rules): the outputs differ. -/
theorem localPolicyLoad_list_shape_cex :
    localPolicyLoad (some (singleDocOf requireLabelsPolicy)) =
      Except.ok [requireLabelsPolicy] ∧
    localPolicyLoad (some (listDocOf requireLabelsPolicy)) =
      Except.ok [ { apiVersion := "kyverno.io/v1",
                    kind := "ClusterPolicyList", name := "",
                    rules := [] } ] ∧
    requireLabelsPolicy.name = "require-labels" ∧
    requireLabelsPolicy.rules.length = 1 :=
  ⟨rfl, rfl, rfl, rfl⟩

/-- Claim C7 (amended): loading a single-policy document yields exactly
that policy, but loading the policy wrapped in a one-element list
document does not: the single-policy unmarshal already succeeds on the
list document (its top-level apiVersion is non-empty and the unknown
items field is ignored), so Load returns the one degenerate policy built
from the list document's own top-level fields.  The list branch is taken
only when the document's top-level apiVersion is empty, in which case
the wrapped policy is returned. -/
theorem localPolicyLoad_shapes (p : KPolicy) (h : p.apiVersion ≠ "") :
    localPolicyLoad (some (singleDocOf p)) = Except.ok [p] ∧
    localPolicyLoad (some (listDocOf p)) =
      Except.ok [asClusterPolicy (listDocOf p)] ∧
    localPolicyLoad (some { (listDocOf p) with apiVersion := "" }) =
      Except.ok [p] := by
  refine ⟨?_, rfl, rfl⟩
  obtain ⟨a, k, n, rs⟩ := p
  simp only [localPolicyLoad, singleDocOf, asClusterPolicy]
  rw [if_pos h]

/-- Witness for the amended C7 theorem at the require-labels policy. -/
theorem localPolicyLoad_shapes_witness :
    requireLabelsPolicy.apiVersion = "kyverno.io/v1" ∧
    localPolicyLoad (some (singleDocOf requireLabelsPolicy)) =
      Except.ok [requireLabelsPolicy] ∧
    localPolicyLoad (some (listDocOf requireLabelsPolicy)) =
      Except.ok [asClusterPolicy (listDocOf requireLabelsPolicy)] ∧
    localPolicyLoad
        (some { (listDocOf requireLabelsPolicy) with apiVersion := "" }) =
      Except.ok [requireLabelsPolicy] :=
  ⟨rfl,
   (localPolicyLoad_shapes requireLabelsPolicy (by decide)).1,
   (localPolicyLoad_shapes requireLabelsPolicy (by decide)).2.1,
   (localPolicyLoad_shapes requireLabelsPolicy (by decide)).2.2⟩

/-! ## C8 -/

/-- Claim C8: the policy loader never returns an empty list on success —
every source yielding no valid policy is an error — and the engine
errors with "no valid policies found in the provided paths" whenever
the loaded policy set is empty. -/
theorem localPolicyLoad_nonempty_and_engine_errors :
    (∀ content l, localPolicyLoad content = Except.ok l → l ≠ []) ∧
    (∀ f g req, req.policyPaths.isEmpty = false →
      loadAllPolicies f req.policyPaths = Except.ok [] →
      applyPolicies f g req =
        Except.error "no valid policies found in the provided paths") := by
  constructor
  · intro content l h
    cases content with
    | none => exact absurd h (by simp [localPolicyLoad])
    | some d =>
      simp only [localPolicyLoad] at h
      by_cases h1 : (asClusterPolicy d).apiVersion ≠ ""
      · rw [if_pos h1] at h
        have : [asClusterPolicy d] = l := by
          injection h
        rw [← this]
        simp
      · rw [if_neg h1] at h
        by_cases h2 : (asClusterPolicyList d).length > 0
        · rw [if_pos h2] at h
          have : asClusterPolicyList d = l := by
            injection h
          rw [← this]
          intro hnil
          rw [hnil] at h2
          exact absurd h2 (by simp)
        · rw [if_neg h2] at h
          exact absurd h (by simp)
  · intro f g req h1 h2
    unfold applyPolicies
    rw [h1, h2]
    simp

/-- Witness for C8: the require-labels document loads to a non-empty
list, and the engine run whose loader yields zero policies errors. -/
theorem localPolicyLoad_nonempty_witness :
    localPolicyLoad (some (singleDocOf requireLabelsPolicy)) =
      Except.ok [requireLabelsPolicy] ∧
    ([requireLabelsPolicy] : List KPolicy) ≠ [] ∧
    applyPolicies emptyPolicyLoader onePodLoader reqOnePath =
      Except.error "no valid policies found in the provided paths" :=
  ⟨rfl,
   localPolicyLoad_nonempty_and_engine_errors.1
     (some (singleDocOf requireLabelsPolicy)) [requireLabelsPolicy] rfl,
   localPolicyLoad_nonempty_and_engine_errors.2 emptyPolicyLoader
     onePodLoader reqOnePath rfl rfl⟩

/-! ## C4 -/

/-- On a validation rule whose status is neither pass nor skip, the
per-rule body emits exactly the built report result. -/

lemma processRule_emit (now : Int) (auditWarn : Bool)
    (er : EngineResponse) (scored : Bool) (cat sev : String)
    (rr : RuleResponse) (h2 : rr.ruleType = "Validation")
    (h3 : ¬(rr.status = "pass" ∨ rr.status = "skip")) :
    processRule now auditWarn er scored cat sev rr = some
      { policy := er.policyName,
        rule := rr.name,
        resources := [ { kind := er.resource.kind,
                         nspace := er.resource.nspace,
                         apiVersion := er.resource.apiVersion,
                         name := er.resource.name,
                         uid := er.resource.uid } ],
        scored := scored,
        message := rr.message,
        result := classifyRuleStatus auditWarn scored
          er.failureActionAudit rr.status,
        source := "kyverno",
        timestamp := now,
        category := cat,
        severity := sev } := by
  unfold processRule
  rw [if_neg (by simp [h2]), if_neg h3]

/-- Claim C4: for a validation rule response with input status fail,
BuildPolicyReportResults classifies the emitted result as warn whenever
the policy is unscored, regardless of mode; when scored, as warn exactly
when auditWarn is set and the validation failure action is audit, and as
fail otherwise. -/
theorem buildPolicyReportResults_fail_decision (now : Int)
    (auditWarn : Bool) (er : EngineResponse) (rr : RuleResponse)
    (h1 : er.rules = [rr]) (h2 : rr.ruleType = "Validation")
    (h3 : rr.status = "fail") :
    (buildPolicyReportResults now auditWarn [er]).map
        PolicyReportResult.result =
      [if scoredOf er = false then "warn"
       else if auditWarn && er.failureActionAudit then "warn"
       else "fail"] := by
  have hpr := processRule_emit now auditWarn er (scoredOf er)
    (categoryOf er) (severityOf er) rr h2 (by rw [h3]; decide)
  rw [h3] at hpr
  have hraw : rawReportResults now auditWarn [er] =
      er.rules.filterMap (processRule now auditWarn er (scoredOf er)
        (categoryOf er) (severityOf er)) := by
    simp [rawReportResults]
  rw [h1] at hraw
  unfold buildPolicyReportResults
  rw [hraw, List.filterMap_cons, hpr]
  simp only [List.filterMap_nil, List.isEmpty_cons, List.map_cons,
    List.map_nil, if_false, Bool.false_eq_true]
  cases hs : scoredOf er <;> cases auditWarn <;>
    cases hfa : er.failureActionAudit <;> rfl

/-- Witness for C4: the unscored failing rule classifies as warn. -/
theorem buildPolicyReportResults_fail_decision_witness :
    erUnscored.rules = [failRule] ∧
    failRule.ruleType = "Validation" ∧ failRule.status = "fail" ∧
    (buildPolicyReportResults 0 false [erUnscored]).map
        PolicyReportResult.result =
      [if scoredOf erUnscored = false then "warn"
       else if false && erUnscored.failureActionAudit then "warn"
       else "fail"] :=
  ⟨rfl, rfl, rfl,
   buildPolicyReportResults_fail_decision 0 false erUnscored failRule
     rfl rfl rfl⟩

/-! ## C10 -/

/-- Filtering first changes nothing when the mapped function sends every
filtered-out element to none. -/

lemma filterMap_filter_eq {α β : Type} (p : α → Bool) (f : α → Option β)
    (h : ∀ x, p x = false → f x = none) (l : List α) :
    (l.filter p).filterMap f = l.filterMap f := by
  induction l with
  | nil => rfl
  | cons x xs ih =>
    cases hp : p x with
    | true => simp [List.filter_cons, hp, List.filterMap_cons, ih]
    | false => simp [List.filter_cons, hp, List.filterMap_cons, h x hp, ih]

/-- Claim C10: the classifier emits report results only for validation
rules: a rule response whose type is not Validation (mutation,
generation) produces none whatever its status, and removing all
non-validation rule responses leaves the output of
BuildPolicyReportResults unchanged. -/
theorem buildPolicyReportResults_validation_only :
    (∀ (now : Int) (auditWarn : Bool) (er : EngineResponse)
       (scored : Bool) (cat sev : String) (rr : RuleResponse),
      rr.ruleType ≠ "Validation" →
      processRule now auditWarn er scored cat sev rr = none) ∧
    (∀ (now : Int) (auditWarn : Bool) (ers : List EngineResponse),
      buildPolicyReportResults now auditWarn (ers.map keepValidationOnly) =
        buildPolicyReportResults now auditWarn ers) := by
  have hnone : ∀ (now : Int) (auditWarn : Bool) (er : EngineResponse)
      (scored : Bool) (cat sev : String) (rr : RuleResponse),
      rr.ruleType ≠ "Validation" →
      processRule now auditWarn er scored cat sev rr = none := by
    intro now aw er s c v rr h
    unfold processRule
    rw [if_pos h]
  refine ⟨hnone, ?_⟩
  intro now aw ers
  unfold buildPolicyReportResults
  have hr : rawReportResults now aw (ers.map keepValidationOnly) =
      rawReportResults now aw ers := by
    unfold rawReportResults
    induction ers with
    | nil => rfl
    | cons er rest ih =>
      simp only [List.map_cons, List.flatMap_cons, ih]
      congr 1
      show (er.rules.filter fun r => r.ruleType = "Validation").filterMap
          (processRule now aw er (scoredOf er) (categoryOf er)
            (severityOf er)) = _
      exact filterMap_filter_eq _ _
        (fun rr hrr =>
          hnone now aw er (scoredOf er) (categoryOf er) (severityOf er) rr
            (by simpa using hrr))
        er.rules
  rw [hr]

/-- Witness for C10: the failing mutation rule emits nothing, and
dropping non-validation rules leaves the classified output unchanged. -/
theorem buildPolicyReportResults_validation_only_witness :
    processRule 0 false erMixed true "" "" mutateRule = none ∧
    buildPolicyReportResults 0 false ([erMixed].map keepValidationOnly) =
      buildPolicyReportResults 0 false [erMixed] :=
  ⟨buildPolicyReportResults_validation_only.1 0 false erMixed true "" ""
     mutateRule (by decide),
   buildPolicyReportResults_validation_only.2 0 false [erMixed]⟩

/-! ## C5 -/

/-- Every result an item contributes has status fail, error or warn. -/

lemma mem_itemContribution_result (excl : List String) (u : ReportItem)
    (r : PolicyReportResult) (h : r ∈ itemContribution excl u) :
    r.result = "fail" ∨ r.result = "error" ∨ r.result = "warn" := by
  unfold itemContribution at h
  split at h
  · simp at h
  · split at h
    · simp at h
    · split at h
      · simp at h
      · rw [List.mem_filter] at h
        simpa using h.2

/-- Every gathered result has status fail, error or warn. -/

lemma mem_gatherViolations_result (excl : List String)
    (nsItems cItems : List ReportItem) (r : PolicyReportResult)
    (h : r ∈ gatherViolations excl nsItems cItems) :
    r.result = "fail" ∨ r.result = "error" ∨ r.result = "warn" := by
  unfold gatherViolations addResults at h
  rcases List.mem_append.mp h with h | h <;>
  · obtain ⟨u, _, hu⟩ := List.mem_flatMap.mp h
    exact mem_itemContribution_result excl u r hu

/-- Claim C5 (counterexample): a warn result inside a report whose
summary shows zero fails and zero errors is dropped from the
violations-only view although its status is in the warn set and its
namespace is not excluded — inclusion is not implied by status alone. -/
theorem gatherViolations_warn_only_dropped :
    gatherViolations [] [warnOnlyItem] [] = [] ∧
    warnOnlyReport.results = [warnResult] ∧
    warnResult.result = "warn" ∧
    warnOnlyItem.nspace = "default" :=
  ⟨rfl, rfl, rfl, rfl⟩

/-- Claim C5 (amended): inclusion in the violations-only view requires
output status fail, error or warn — pass and skip entries never appear —
and within a report that survives the namespace-exclusion and
summary (fail or error counter nonzero) pre-filters, a result is
included exactly when its status is fail, error or warn. -/
theorem gatherViolations_status_filter :
    (∀ (excl : List String) (nsItems cItems : List ReportItem)
       (r : PolicyReportResult),
      r ∈ gatherViolations excl nsItems cItems →
      r.result = "fail" ∨ r.result = "error" ∨ r.result = "warn") ∧
    (∀ (excl : List String) (u : ReportItem) (pr : ReportData)
       (r : PolicyReportResult),
      excl.contains u.nspace = false →
      u.parsed = some pr →
      ¬(pr.summaryFail = 0 ∧ pr.summaryError = 0) →
      (r ∈ itemContribution excl u ↔
        r ∈ pr.results ∧
          (r.result = "fail" ∨ r.result = "error" ∨ r.result = "warn"))) := by
  constructor
  · exact mem_gatherViolations_result
  · intro excl u pr r h1 h2 h3
    unfold itemContribution
    rw [h1, h2]
    simp only [Bool.false_eq_true, if_false]
    rw [if_neg h3, List.mem_filter]
    simp

/-- Witness for the amended C5 theorem on the failing report item. -/
theorem gatherViolations_status_filter_witness :
    failResult ∈ gatherViolations [] [failItem] [] ∧
    (failResult.result = "fail" ∨ failResult.result = "error" ∨
      failResult.result = "warn") ∧
    (failResult ∈ itemContribution [] failItem ↔
      failResult ∈ failReport.results ∧
        (failResult.result = "fail" ∨ failResult.result = "error" ∨
          failResult.result = "warn")) :=
  ⟨by decide,
   gatherViolations_status_filter.1 [] [failItem] [] failResult (by decide),
   gatherViolations_status_filter.2 [] failItem failReport failResult rfl
     rfl (by decide)⟩

/-! ## C6 -/

/-- Claim C6 (counterexample): with zero violations produced,
BuildPolicyReportResults does not return an empty collection: it inserts
the "No policies applied" placeholder entry with status skip. -/
theorem buildPolicyReportResults_placeholder_cex :
    buildPolicyReportResults 0 false [] = [noPoliciesResult] ∧
    noPoliciesResult.policy = "No policies applied" ∧
    noPoliciesResult.result = "skip" :=
  ⟨rfl, rfl, rfl⟩

/-- Claim C6 (amended): when zero results are produced the classifier
BuildPolicyReportResults returns exactly the one "No policies applied"
placeholder entry rather than an empty collection, while the violations
gatherer returns the explicit empty collection in that case and never
emits a skip-status entry such as the placeholder. -/
theorem classifier_empty_behavior (now : Int) (auditWarn : Bool)
    (ers : List EngineResponse) (excl : List String)
    (nsItems cItems : List ReportItem) (r : PolicyReportResult)
    (h1 : rawReportResults now auditWarn ers = []) :
    buildPolicyReportResults now auditWarn ers = [noPoliciesResult] ∧
    (r ∈ gatherViolations excl nsItems cItems → r.result ≠ "skip") := by
  constructor
  · unfold buildPolicyReportResults
    rw [h1]
    rfl
  · intro h
    rcases mem_gatherViolations_result excl nsItems cItems r h with
      h' | h' | h' <;> rw [h'] <;> decide

/-- Witness for the amended C6 theorem: an empty engine-response list
yields exactly the placeholder, and the gathered fail result is not a
skip entry. -/
theorem classifier_empty_behavior_witness :
    rawReportResults 0 false [] = [] ∧
    buildPolicyReportResults 0 false [] = [noPoliciesResult] ∧
    failResult.result ≠ "skip" :=
  ⟨rfl,
   (classifier_empty_behavior 0 false [] [] [failItem] [] failResult
     rfl).1,
   (classifier_empty_behavior 0 false [] [] [failItem] [] failResult
     rfl).2 (by decide)⟩

/-! ## C9 -/

/-- A wider exclusion set never enlarges one item's contribution. -/

lemma itemContribution_mono (S T : List String) (u : ReportItem)
    (h : ∀ x, x ∈ S → x ∈ T) :
    (itemContribution T u).length ≤ (itemContribution S u).length := by
  unfold itemContribution
  by_cases hT : T.contains u.nspace
  · rw [if_pos hT]
    simp
  · have hS : ¬ S.contains u.nspace = true := by
      intro hc
      have hmem : u.nspace ∈ S := by simpa using hc
      exact hT (by simpa using h u.nspace hmem)
    rw [if_neg hT, if_neg hS]

/-- A wider exclusion set never enlarges a batch's results. -/

lemma addResults_mono (S T : List String) (items : List ReportItem)
    (h : ∀ x, x ∈ S → x ∈ T) :
    (addResults T items).length ≤ (addResults S items).length := by
  induction items with
  | nil => exact Nat.le_refl 0
  | cons u rest ih =>
    simp only [addResults, List.flatMap_cons, List.length_append] at *
    exact Nat.add_le_add (itemContribution_mono S T u h) ih

/-- Claim C9: namespace exclusion is monotonic — for exclusion sets S
and T with S a subset of T, the violations gathered with T are never
more numerous than those gathered with S, exclusion being applied to
the namespace of the source report. -/
theorem gatherViolations_exclusion_monotone (S T : List String)
    (nsItems cItems : List ReportItem) (h : ∀ x, x ∈ S → x ∈ T) :
    (gatherViolations T nsItems cItems).length ≤
      (gatherViolations S nsItems cItems).length := by
  unfold gatherViolations
  rw [List.length_append, List.length_append]
  exact Nat.add_le_add (addResults_mono S T nsItems h)
    (addResults_mono S T cItems h)

/-- Witness for C9 at the tool's default exclusion namespaces and their
one-namespace prefix, over a default-namespace item and a kyverno item. -/
theorem gatherViolations_exclusion_monotone_witness :
    (gatherViolations ["kube-system", "kyverno"]
        [failItem, kyvernoItem] []).length ≤
      (gatherViolations ["kube-system"]
        [failItem, kyvernoItem] []).length :=
  gatherViolations_exclusion_monotone
    ["kube-system"] ["kube-system", "kyverno"]
    [failItem, kyvernoItem] [] (by decide)
